import Mathlib

/-!
Shallow embedding of `custom_components/heos_queue_mgr/__init__.py`
(a Home Assistant integration exposing batched HEOS queue-management
service calls) together with proofs about the claims of its spec.

Modelling conventions:
* Remote payloads are protocol-shaped values (queue entry lists and
  now-playing records, per the outbound interface of the protocol);
  `HeosError` raised by a channel call is modelled by `ChannelReply.raise`.
* Each device's command channel is modelled by a script: the list of
  replies its successive `connection.command` calls receive, consumed in
  order.  An exhausted script raises.
* Side effects (issued remote commands and log statements) are recorded
  in an event trace; each log call site in the source carries a distinct
  tag string.
* `async_exec_command`'s sequential `for` loop over the deduplicated
  entity set is modelled by `execEntities`, which also records which
  targets had the per-device callback invoked and whether an exception
  escaped the loop (the source has no try/except around the callback).
  Python set iteration order is determinized as first-occurrence order.
-/

namespace HeosQueueMgr

/-- `QueuedItemDict` from the source: the minimum queued item, one `qid`. -/
structure QueuedItemDict where
  qid : Int
deriving DecidableEq, Repr

/-- The `type` field of `NowPlayingDict`: literal "song" or "station". -/
inductive MediaType where
  | song
  | station
deriving DecidableEq, Repr

/-- `NowPlayingDict` from the source: now-playing response. -/
structure NowPlayingDict where
  type : MediaType
  qid : Int
deriving DecidableEq, Repr

/-- Protocol-shaped payload of a channel reply. -/
inductive Payload where
  | queue (entries : List QueuedItemDict)
  | nowPlaying (np : NowPlayingDict)
  | empty
deriving DecidableEq, Repr

/-- A response object returned by `connection.command`: a result flag
plus a payload (source reads `response.result` and `response.payload`). -/
structure CommandResponse where
  result : Bool
  payload : Payload
deriving DecidableEq, Repr

/-- One channel call either raises `HeosError` or returns a response. -/
inductive ChannelReply where
  | raise
  | ok (resp : CommandResponse)
deriving DecidableEq, Repr

/-- The scripted behaviour of one device's command channel: replies
consumed in call order; an exhausted script raises. -/
abbrev ChannelScript := List ChannelReply

/-- The reply the next `connection.command` call on this script
receives (an exhausted script raises). -/
def scriptHead : ChannelScript → ChannelReply
  | [] => ChannelReply.raise
  | r :: _ => r

/-- The `qid` field of an outbound command's parameter dict: absent, an
integer (`remove_from_queue` service), or a comma-joined string
(`clear_queue_except_now_playing`). -/
inductive QidParam where
  | none
  | int (n : Int)
  | str (s : String)
deriving DecidableEq, Repr

/-- Parameter dict of an outbound remote command. -/
structure CmdParams where
  pid : Int
  qid : QidParam
deriving DecidableEq, Repr

/-- Log level of a log call site in the source (`exception` is
`_LOGGER.exception`, an error-level record with a traceback). -/
inductive LogLevel where
  | debug
  | warning
  | error
  | exception
deriving DecidableEq, Repr

/-- An observable event: an issued remote command or a log statement
(tagged by call site). -/
inductive Event where
  | cmd (name : String) (params : CmdParams)
  | log (level : LogLevel) (tag : String)
deriving DecidableEq, Repr

/-- Whether an event is an issued command with the given name. -/
def Event.isCmdNamed (name : String) : Event → Bool
  | Event.cmd n _ => n = name
  | Event.log _ _ => false

/-- Number of issued commands with the given name in a trace. -/
def countCmd (name : String) (t : List Event) : Nat :=
  (t.filter (Event.isCmdNamed name)).length

/-- Whether an event is a log statement at warning, error or exception
level (i.e. any log record that reports a failure). -/
def Event.isFailureLog : Event → Bool
  | Event.log LogLevel.debug _ => false
  | Event.log _ _ => true
  | Event.cmd _ _ => false

/-- An entity extracted from the service call: either a HEOS media
player (carrying its entity id, numeric player id and command-channel
script) or an entity of some other kind, which the dispatcher skips. -/
inductive Entity where
  | heos (entityId : String) (playerId : Int) (script : ChannelScript)
  | other (entityId : String)
deriving DecidableEq, Repr

/-- A resolved target: entity id, player id and live channel. -/
structure Target where
  entityId : String
  pid : Int
  script : ChannelScript
deriving DecidableEq, Repr

/-- The target a HEOS media-player entity resolves to (`none` for a
non-HEOS entity, which the loop skips with a warning). -/
def Entity.toTarget : Entity → Option Target
  | Entity.heos eid pid script => some ⟨eid, pid, script⟩
  | Entity.other _ => none

/-- The targets `async_exec_command` operates on: flatten the
per-platform extraction lists, deduplicate (the source's set
comprehension), and keep the HEOS media players. -/
def resolvedTargets (entityLists : List (List Entity)) : List Target :=
  ((entityLists.flatten).dedup).filterMap Entity.toTarget

/-- Result of the dispatch loop: completed normally carrying the final
aggregate state, or an exception escaped the loop. -/
inductive DispatchResult (σ : Type) where
  | ok (s : σ)
  | exn
deriving DecidableEq, Repr

/-- Result of one per-device callback invocation: the events it emitted
and either the updated aggregate state or an uncaught exception. -/
abbrev HandlerStep (σ : Type) := List Event × DispatchResult σ

/-- A per-device callback: entity id, player id, channel script,
current aggregate state. -/
abbrev PerDeviceFn (σ : Type) := String → Int → ChannelScript → σ → HandlerStep σ

/-- The `for entity in entities` loop of `async_exec_command`: skip
non-HEOS entities with a warning, otherwise await the callback.  There
is no try/except around the callback in the source, so an exception it
raises escapes the loop and the remaining entities are never visited.
Returns the event trace, the list of targets whose callback was
invoked, and the loop's result. -/
def execEntities {σ : Type} (handler : PerDeviceFn σ) :
    List Entity → σ → List Event × List Target × DispatchResult σ
  | [], s => ([], [], DispatchResult.ok s)
  | Entity.other _ :: rest, s =>
      let r := execEntities handler rest s
      (Event.log LogLevel.warning "skip_non_heos_media_player" :: r.1, r.2.1, r.2.2)
  | Entity.heos eid pid script :: rest, s =>
      let step := handler eid pid script s
      match step.2 with
      | DispatchResult.exn => (step.1, [⟨eid, pid, script⟩], DispatchResult.exn)
      | DispatchResult.ok s1 =>
          let r := execEntities handler rest s1
          (step.1 ++ r.1, ⟨eid, pid, script⟩ :: r.2.1, r.2.2)

/-- `async_exec_command(hass, service_call, connection_callback)`:
extract entities per platform, flatten into a set (deduplicate), then
loop over them invoking the callback. -/
def async_exec_command {σ : Type} (handler : PerDeviceFn σ)
    (entityLists : List (List Entity)) (s : σ) :
    List Event × List Target × DispatchResult σ :=
  execEntities handler ((entityLists.flatten).dedup) s

/-- `cast(list[QueuedItemDict], response.payload)`: in the protocol-shaped
payload model, read the payload as a queue-entry list. -/
def Payload.asQueue : Payload → List QueuedItemDict
  | Payload.queue es => es
  | _ => []

/-- `cast(NowPlayingDict, response.payload)`: read the payload as a
now-playing record (protocol-shaped payload model). -/
def Payload.asNowPlaying : Payload → NowPlayingDict
  | Payload.nowPlaying np => np
  | _ => ⟨MediaType.song, 0⟩

/-- `ClearQueue`'s per-device handler: issue `player/clear_queue`;
a `HeosError` is caught and logged with `_LOGGER.exception`. -/
def ClearQueue.handler : PerDeviceFn Unit := fun _eid pid script s =>
  let cmdEv := Event.cmd "player/clear_queue" ⟨pid, QidParam.none⟩
  match scriptHead script with
  | ChannelReply.ok _ => ([cmdEv], DispatchResult.ok s)
  | ChannelReply.raise =>
      ([cmdEv, Event.log LogLevel.exception "clear_queue_error"], DispatchResult.ok s)

/-- `ClearQueue.callback` minus logging of the raw service call: clear
the queue on every resolved target; the service returns no body. -/
def ClearQueue.callback (entityLists : List (List Entity)) :
    List Event × List Target × DispatchResult Unit :=
  async_exec_command ClearQueue.handler entityLists ()

/-- Events emitted after the second `player/get_now_playing_media` call
of `ClearQueueExceptNowPlaying.handler` (steps 5-6: best-effort
verification that the now-playing qid is 1 after queue maintenance). -/
def cqenpTail (r4 : ChannelReply) : List Event :=
  match r4 with
  | ChannelReply.raise =>
      [Event.log LogLevel.exception "get_now_playing_after_maintenance_error"]
  | ChannelReply.ok resp4 =>
      if resp4.result = false then
        [Event.log LogLevel.warning "get_now_playing_after_maintenance_failed"]
      else if (resp4.payload.asNowPlaying).qid ≠ 1 then
        [Event.log LogLevel.debug "now_playing_after_maintenance",
         Event.log LogLevel.error "playing_qid_not_1_after_maintenance"]
      else
        [Event.log LogLevel.debug "now_playing_after_maintenance"]

/-- `ClearQueueExceptNowPlaying.handler`: the ordered per-device
sequence — fetch queue (abort on raise / false result), early-exit when
the queue has at most one entry, fetch now-playing (abort on raise /
false result), issue one batched `player/remove_from_queue` whose `qid`
is the comma-joined ids differing from the now-playing qid (a raise
here is swallowed by `except HeosError: pass` — no log), re-fetch
now-playing and check the qid is 1. -/
def ClearQueueExceptNowPlaying.handler : PerDeviceFn Unit := fun _eid pid script s =>
  let e1 := Event.cmd "player/get_queue" ⟨pid, QidParam.none⟩
  let sc1 := script.tail
  match scriptHead script with
  | ChannelReply.raise =>
      ([e1, Event.log LogLevel.exception "get_queue_error"], DispatchResult.ok s)
  | ChannelReply.ok resp1 =>
    if resp1.result = false then
      ([e1, Event.log LogLevel.warning "get_queue_failed"], DispatchResult.ok s)
    else
      let queuedEntries := resp1.payload.asQueue
      if queuedEntries.length ≤ 1 then
        ([e1, Event.log LogLevel.debug "queue_sized_correctly"], DispatchResult.ok s)
      else
        let e2 := Event.cmd "player/get_now_playing_media" ⟨pid, QidParam.none⟩
        let sc2 := sc1.tail
        match scriptHead sc1 with
        | ChannelReply.raise =>
            ([e1, e2, Event.log LogLevel.exception "get_now_playing_error"],
             DispatchResult.ok s)
        | ChannelReply.ok resp2 =>
          if resp2.result = false then
            ([e1, e2, Event.log LogLevel.warning "get_now_playing_failed"],
             DispatchResult.ok s)
          else
            let playingQid := (resp2.payload.asNowPlaying).qid
            let qidsToRemove := String.intercalate ","
              ((queuedEntries.filter (fun i => decide (i.qid ≠ playingQid))).map
                (fun i => toString i.qid))
            let e3 := Event.cmd "player/remove_from_queue" ⟨pid, QidParam.str qidsToRemove⟩
            -- the reply to the batched removal (`scriptHead sc2`) is never
            -- inspected: `except HeosError: pass`, and no result-flag check
            let sc3 := sc2.tail
            let e4 := Event.cmd "player/get_now_playing_media" ⟨pid, QidParam.none⟩
            ([e1, e2, Event.log LogLevel.debug "now_playing_qid",
              Event.log LogLevel.debug "removing_queue_items", e3, e4] ++
               cqenpTail (scriptHead sc3),
             DispatchResult.ok s)

/-- `ClearQueueExceptNowPlaying.callback` minus logging of the raw
service call: run the sequence on every resolved target; no body. -/
def ClearQueueExceptNowPlaying.callback (entityLists : List (List Entity)) :
    List Event × List Target × DispatchResult Unit :=
  async_exec_command ClearQueueExceptNowPlaying.handler entityLists ()

/-- The shared mutable aggregates of `GetQueue.callback`: the `queues`
dict (insertion-ordered, as a Python dict) and the `errors` list. -/
structure GetQueueState where
  queues : List (String × Payload)
  errors : List String
deriving DecidableEq, Repr

/-- Python dict assignment `d[k] = v`: update in place when the key
exists (keeping its position), else append. -/
def dictInsert (k : String) (v : Payload) :
    List (String × Payload) → List (String × Payload)
  | [] => [(k, v)]
  | (k1, v1) :: rest =>
      if k1 = k then (k, v) :: rest else (k1, v1) :: dictInsert k v rest

/-- `GetQueue`'s per-device handler: issue `player/get_queue`; on a
true result flag record the payload under the entity id; on a raised
`HeosError` log and append the entity id to `errors`.  A false result
flag records nothing. -/
def GetQueue.handler : PerDeviceFn GetQueueState := fun eid pid script s =>
  let cmdEv := Event.cmd "player/get_queue" ⟨pid, QidParam.none⟩
  match scriptHead script with
  | ChannelReply.ok items =>
      ([cmdEv],
       DispatchResult.ok
         (if items.result then { s with queues := dictInsert eid items.payload s.queues }
          else s))
  | ChannelReply.raise =>
      ([cmdEv, Event.log LogLevel.exception "get_queue_from_error"],
       DispatchResult.ok { s with errors := s.errors ++ [eid] })

/-- The mandatory response body of `get_queue`. -/
structure GetQueueResponse where
  count : Nat
  queues : List (String × Payload)
  errors : List String
deriving DecidableEq, Repr

/-- `GetQueue.callback` minus logging of the raw service call: dispatch
the handler, then return `{count: len(queues), queues, errors}`.  A
`none` response models an exception escaping the callback. -/
def GetQueue.callback (entityLists : List (List Entity)) :
    List Event × List Target × Option GetQueueResponse :=
  let r := async_exec_command GetQueue.handler entityLists ⟨[], []⟩
  match r.2.2 with
  | DispatchResult.ok s => (r.1, r.2.1, some ⟨s.queues.length, s.queues, s.errors⟩)
  | DispatchResult.exn => (r.1, r.2.1, Option.none)

/-- `RemoveFromQueue`'s per-device handler for a validated `qid`: issue
`player/remove_from_queue`; on a raised `HeosError` log and append the
entity id to `errors`.  The result flag is not inspected. -/
def RemoveFromQueue.handler (qid : Int) : PerDeviceFn (List String) :=
  fun eid pid script errors =>
  let cmdEv := Event.cmd "player/remove_from_queue" ⟨pid, QidParam.int qid⟩
  match scriptHead script with
  | ChannelReply.ok _ => ([cmdEv], DispatchResult.ok errors)
  | ChannelReply.raise =>
      ([cmdEv, Event.log LogLevel.exception "remove_from_queue_error"],
       DispatchResult.ok (errors ++ [eid]))

/-- The optional response body of `remove_from_queue`. -/
structure RemoveFromQueueResponse where
  errors : List String
deriving DecidableEq, Repr

/-- `RemoveFromQueue.callback` minus logging of the raw service call:
when `queue_id` is absent from the service data, log an error and
return no body without dispatching; otherwise dispatch the handler and
return `{errors}` only when the caller requested a response. -/
def RemoveFromQueue.callback (queueId : Option Int) (returnResponse : Bool)
    (entityLists : List (List Entity)) :
    List Event × List Target × Option RemoveFromQueueResponse :=
  match queueId with
  | Option.none => ([Event.log LogLevel.error "missing_queue_id"], [], Option.none)
  | some qid =>
      let r := async_exec_command (RemoveFromQueue.handler qid) entityLists []
      match r.2.2 with
      | DispatchResult.ok errors =>
          (r.1, r.2.1, if returnResponse then some ⟨errors⟩ else Option.none)
      | DispatchResult.exn => (r.1, r.2.1, Option.none)

/-- Whether a target's first channel call raises `HeosError`. -/
def Target.raises (t : Target) : Bool :=
  match scriptHead t.script with
  | ChannelReply.raise => true
  | ChannelReply.ok _ => false

/-- Whether a target's first channel call returns with a true result flag. -/
def Target.flagSucceeds (t : Target) : Bool :=
  match scriptHead t.script with
  | ChannelReply.raise => false
  | ChannelReply.ok resp => resp.result

/-- Whether a target's first channel call returns normally but with a
false result flag (an unsuccessful result, distinct from a raise). -/
def Target.flagFails (t : Target) : Bool :=
  match scriptHead t.script with
  | ChannelReply.raise => false
  | ChannelReply.ok resp => !resp.result

/-- The payload the target's first channel call returns. -/
def Target.firstPayload (t : Target) : Payload :=
  match scriptHead t.script with
  | ChannelReply.raise => Payload.empty
  | ChannelReply.ok resp => resp.payload

/-! ### Helper lemmas -/

theorem Entity.toTarget_inj (a a' : Entity) (b : Target)
    (h : b ∈ Entity.toTarget a) (h' : b ∈ Entity.toTarget a') : a = a' := by
  cases a with
  | other eid => simp [Entity.toTarget] at h
  | heos eid pid sc =>
    cases a' with
    | other eid' => simp [Entity.toTarget] at h'
    | heos eid' pid' sc' =>
      simp [Entity.toTarget] at h h'
      subst h
      obtain ⟨h1, h2, h3⟩ := Target.mk.injEq .. ▸ h'
      simp [h1, h2, h3]

theorem resolvedTargets_nodup (ll : List (List Entity)) :
    (resolvedTargets ll).Nodup :=
  List.Nodup.filterMap (fun a a' b hb hb' => Entity.toTarget_inj a a' b hb hb')
    (List.nodup_dedup _)

theorem execEntities_invokes {σ : Type} (handler : PerDeviceFn σ)
    (hok : ∀ eid pid sc st, ∃ st1, (handler eid pid sc st).2 = DispatchResult.ok st1)
    (es : List Entity) :
    ∀ s : σ, (execEntities handler es s).2.1 = es.filterMap Entity.toTarget ∧
      ∃ s1, (execEntities handler es s).2.2 = DispatchResult.ok s1 := by
  induction es with
  | nil => intro s; simp [execEntities]
  | cons e rest ih =>
    intro s
    cases e with
    | other eid =>
      have h := ih s
      simp [execEntities, Entity.toTarget, h.1]
      exact h.2
    | heos eid pid sc =>
      obtain ⟨s1, h1⟩ := hok eid pid sc s
      have h := ih s1
      simp [execEntities, h1, Entity.toTarget, h.1]
      exact h.2

theorem clearQueue_handler_ok (eid : String) (pid : Int) (sc : ChannelScript)
    (s : Unit) : ∃ s1, (ClearQueue.handler eid pid sc s).2 = DispatchResult.ok s1 := by
  unfold ClearQueue.handler
  repeat' split
  all_goals exact ⟨_, rfl⟩

theorem cqenp_handler_ok (eid : String) (pid : Int)
    (sc : ChannelScript) (s : Unit) :
    ∃ s1, (ClearQueueExceptNowPlaying.handler eid pid sc s).2 = DispatchResult.ok s1 := by
  unfold ClearQueueExceptNowPlaying.handler
  dsimp only
  repeat' split
  all_goals exact ⟨_, rfl⟩

theorem getQueue_handler_ok (eid : String) (pid : Int) (sc : ChannelScript)
    (s : GetQueueState) :
    ∃ s1, (GetQueue.handler eid pid sc s).2 = DispatchResult.ok s1 := by
  unfold GetQueue.handler
  repeat' split
  all_goals exact ⟨_, rfl⟩

theorem removeFromQueue_handler_ok (qid : Int) (eid : String) (pid : Int)
    (sc : ChannelScript) (s : List String) :
    ∃ s1, (RemoveFromQueue.handler qid eid pid sc s).2 = DispatchResult.ok s1 := by
  unfold RemoveFromQueue.handler
  repeat' split
  all_goals exact ⟨_, rfl⟩

theorem dictInsert_of_not_mem (k : String) (v : Payload) :
    ∀ l : List (String × Payload), k ∉ l.map Prod.fst →
      dictInsert k v l = l ++ [(k, v)] := by
  intro l
  induction l with
  | nil => intro _; rfl
  | cons p rest ih =>
    intro h
    obtain ⟨k1, v1⟩ := p
    simp only [List.map_cons, List.mem_cons, not_or] at h
    have hne : ¬ k1 = k := fun he => h.1 (he.symm)
    simp [dictInsert, hne, ih h.2]

theorem target_partition (ts : List Target) :
    (ts.filter Target.raises).length + (ts.filter Target.flagFails).length +
      (ts.filter Target.flagSucceeds).length = ts.length := by
  induction ts with
  | nil => simp
  | cons t rest ih =>
    rcases hr : scriptHead t.script with _ | resp
    · simp [List.filter_cons, Target.raises, Target.flagFails,
        Target.flagSucceeds, hr]
      omega
    · rcases hb : resp.result with _ | _ <;>
        (simp [List.filter_cons, Target.raises, Target.flagFails,
          Target.flagSucceeds, hr, hb]; omega)

theorem getQueue_fold (es : List Entity) :
    ∀ s : GetQueueState,
      (∀ t ∈ es.filterMap Entity.toTarget, t.entityId ∉ s.queues.map Prod.fst) →
      ((es.filterMap Entity.toTarget).map Target.entityId).Nodup →
      (execEntities GetQueue.handler es s).2.2 = DispatchResult.ok
        ⟨s.queues ++ ((es.filterMap Entity.toTarget).filter Target.flagSucceeds).map
            (fun t => (t.entityId, t.firstPayload)),
         s.errors ++ ((es.filterMap Entity.toTarget).filter Target.raises).map
            Target.entityId⟩ := by
  induction es with
  | nil => intro s _ _; simp [execEntities]
  | cons e rest ih =>
    intro s hdisj hnodup
    cases e with
    | other eid =>
      rw [show (Entity.other eid :: rest).filterMap Entity.toTarget
            = rest.filterMap Entity.toTarget from rfl] at hdisj hnodup ⊢
      simpa [execEntities] using ih s hdisj hnodup
    | heos eid pid sc =>
      rw [show (Entity.heos eid pid sc :: rest).filterMap Entity.toTarget
            = ⟨eid, pid, sc⟩ :: rest.filterMap Entity.toTarget from rfl]
        at hdisj hnodup ⊢
      have hdHead : eid ∉ s.queues.map Prod.fst :=
        hdisj ⟨eid, pid, sc⟩ (List.mem_cons_self _ _)
      have hdRest : ∀ t ∈ rest.filterMap Entity.toTarget,
          t.entityId ∉ s.queues.map Prod.fst :=
        fun t ht => hdisj t (List.mem_cons_of_mem _ ht)
      rw [List.map_cons] at hnodup
      have hnotin : eid ∉ (rest.filterMap Entity.toTarget).map Target.entityId :=
        (List.nodup_cons.mp hnodup).1
      have hnodupRest := (List.nodup_cons.mp hnodup).2
      rcases hr : scriptHead sc with _ | resp
      · have hihyp := ih { s with errors := s.errors ++ [eid] } hdRest hnodupRest
        simp [execEntities, GetQueue.handler, hr, hihyp, List.filter_cons,
          Target.flagSucceeds, Target.raises]
      · rcases hb : resp.result with _ | _
        · have hihyp := ih s hdRest hnodupRest
          simp [execEntities, GetQueue.handler, hr, hb, hihyp, List.filter_cons,
            Target.flagSucceeds, Target.raises]
        · have hdRest2 : ∀ t ∈ rest.filterMap Entity.toTarget,
              t.entityId ∉ (s.queues ++ [(eid, resp.payload)]).map Prod.fst := by
            intro t ht
            simp only [List.map_append, List.mem_append, List.map_cons,
              List.map_nil, List.mem_singleton, not_or]
            refine ⟨hdRest t ht, fun he => hnotin ?_⟩
            exact he ▸ List.mem_map_of_mem Target.entityId ht
          have hihyp := ih { s with queues := s.queues ++ [(eid, resp.payload)] }
            hdRest2 hnodupRest
          have hins := dictInsert_of_not_mem eid resp.payload s.queues hdHead
          simp [execEntities, GetQueue.handler, hr, hb, hins, hihyp,
            List.filter_cons, Target.flagSucceeds, Target.raises,
            Target.firstPayload]

theorem removeFromQueue_fold (qid : Int) (es : List Entity) :
    ∀ errors : List String,
      (execEntities (RemoveFromQueue.handler qid) es errors).2.2 = DispatchResult.ok
        (errors ++
          ((es.filterMap Entity.toTarget).filter Target.raises).map Target.entityId) := by
  induction es with
  | nil => intro errors; simp [execEntities]
  | cons e rest ih =>
    intro errors
    cases e with
    | other eid => simpa [execEntities, Entity.toTarget] using ih errors
    | heos eid pid sc =>
      rcases hr : scriptHead sc with _ | resp
      · simp [execEntities, RemoveFromQueue.handler, hr, ih (errors ++ [eid]),
          Entity.toTarget, List.filter_cons, Target.raises]
      · simp [execEntities, RemoveFromQueue.handler, hr, ih errors,
          Entity.toTarget, List.filter_cons, Target.raises]

theorem countCmd_append (name : String) (t1 t2 : List Event) :
    countCmd name (t1 ++ t2) = countCmd name t1 + countCmd name t2 := by
  simp [countCmd, List.filter_append]

theorem cqenpTail_no_cmds (name : String) (r : ChannelReply) :
    countCmd name (cqenpTail r) = 0 := by
  rcases r with _ | resp
  · rfl
  · rcases hb : resp.result with _ | _
    · simp [cqenpTail, hb, countCmd, Event.isCmdNamed]
    · by_cases hq : (resp.payload.asNowPlaying).qid = 1
      · simp [cqenpTail, hb, hq, countCmd, Event.isCmdNamed]
      · simp [cqenpTail, hb, hq, countCmd, Event.isCmdNamed]

/-- C5: for a device whose queue fetch succeeds with at most one entry,
`clear_queue_except_now_playing`'s per-device sequence stops right after
the first fetch (a success no-op): the whole trace is the single
`player/get_queue` command plus a debug log, so no
`player/get_now_playing_media` and no `player/remove_from_queue`
command is issued for that device. -/
theorem cqenp_small_queue_early_exit (eid : String) (pid : Int)
    (entries : List QueuedItemDict) (rest : ChannelScript) (s : Unit)
    (h : entries.length ≤ 1) :
    ClearQueueExceptNowPlaying.handler eid pid
        (ChannelReply.ok ⟨true, Payload.queue entries⟩ :: rest) s =
      ([Event.cmd "player/get_queue" ⟨pid, QidParam.none⟩,
        Event.log LogLevel.debug "queue_sized_correctly"], DispatchResult.ok s) ∧
    countCmd "player/get_now_playing_media"
      (ClearQueueExceptNowPlaying.handler eid pid
        (ChannelReply.ok ⟨true, Payload.queue entries⟩ :: rest) s).1 = 0 ∧
    countCmd "player/remove_from_queue"
      (ClearQueueExceptNowPlaying.handler eid pid
        (ChannelReply.ok ⟨true, Payload.queue entries⟩ :: rest) s).1 = 0 := by
  have htrace : ClearQueueExceptNowPlaying.handler eid pid
      (ChannelReply.ok ⟨true, Payload.queue entries⟩ :: rest) s =
      ([Event.cmd "player/get_queue" ⟨pid, QidParam.none⟩,
        Event.log LogLevel.debug "queue_sized_correctly"], DispatchResult.ok s) := by
    simp [ClearQueueExceptNowPlaying.handler, scriptHead, Payload.asQueue, h]
  refine ⟨htrace, ?_, ?_⟩ <;> (rw [htrace]; rfl)

/-- Witness for C5 at a one-entry queue. -/
theorem cqenp_small_queue_early_exit_witness :
    ([(⟨5⟩ : QueuedItemDict)].length ≤ 1) ∧
    (ClearQueueExceptNowPlaying.handler "media_player.x" 3
        (ChannelReply.ok ⟨true, Payload.queue [⟨5⟩]⟩ :: []) () =
      ([Event.cmd "player/get_queue" ⟨3, QidParam.none⟩,
        Event.log LogLevel.debug "queue_sized_correctly"], DispatchResult.ok ()) ∧
     countCmd "player/get_now_playing_media"
       (ClearQueueExceptNowPlaying.handler "media_player.x" 3
         (ChannelReply.ok ⟨true, Payload.queue [⟨5⟩]⟩ :: []) ()).1 = 0 ∧
     countCmd "player/remove_from_queue"
       (ClearQueueExceptNowPlaying.handler "media_player.x" 3
         (ChannelReply.ok ⟨true, Payload.queue [⟨5⟩]⟩ :: []) ()).1 = 0) :=
  ⟨by decide, cqenp_small_queue_early_exit "media_player.x" 3 [⟨5⟩] [] () (by decide)⟩

theorem cqenp_success_trace (eid : String) (pid : Int)
    (entries : List QueuedItemDict) (ty : MediaType) (pq : Int)
    (rest : ChannelScript) (s : Unit) (h : 1 < entries.length) :
    ClearQueueExceptNowPlaying.handler eid pid
        (ChannelReply.ok ⟨true, Payload.queue entries⟩ ::
         ChannelReply.ok ⟨true, Payload.nowPlaying ⟨ty, pq⟩⟩ :: rest) s =
      ([Event.cmd "player/get_queue" ⟨pid, QidParam.none⟩,
        Event.cmd "player/get_now_playing_media" ⟨pid, QidParam.none⟩,
        Event.log LogLevel.debug "now_playing_qid",
        Event.log LogLevel.debug "removing_queue_items",
        Event.cmd "player/remove_from_queue"
          ⟨pid, QidParam.str (String.intercalate ","
            ((entries.filter (fun i => decide (i.qid ≠ pq))).map
              (fun i => toString i.qid)))⟩,
        Event.cmd "player/get_now_playing_media" ⟨pid, QidParam.none⟩] ++
          cqenpTail (scriptHead rest.tail),
       DispatchResult.ok s) := by
  have hnle : ¬ entries.length ≤ 1 := by omega
  simp [ClearQueueExceptNowPlaying.handler, scriptHead, Payload.asQueue,
    Payload.asNowPlaying, hnle]

/-- C6: for a device whose queue has more than one entry and whose
now-playing fetch succeeds, exactly one batched
`player/remove_from_queue` command is issued, carrying the comma-joined
ids of exactly the fetched queue entries whose qid differs from the
now-playing qid; the qids of that joined list are exactly the queue
qids other than the now-playing one — none added, none omitted. -/
theorem cqenp_removal_set (eid : String) (pid : Int)
    (entries : List QueuedItemDict) (ty : MediaType) (pq : Int)
    (rest : ChannelScript) (s : Unit) (h : 1 < entries.length) :
    countCmd "player/remove_from_queue"
      (ClearQueueExceptNowPlaying.handler eid pid
        (ChannelReply.ok ⟨true, Payload.queue entries⟩ ::
         ChannelReply.ok ⟨true, Payload.nowPlaying ⟨ty, pq⟩⟩ :: rest) s).1 = 1 ∧
    Event.cmd "player/remove_from_queue"
        ⟨pid, QidParam.str (String.intercalate ","
          ((entries.filter (fun i => decide (i.qid ≠ pq))).map
            (fun i => toString i.qid)))⟩ ∈
      (ClearQueueExceptNowPlaying.handler eid pid
        (ChannelReply.ok ⟨true, Payload.queue entries⟩ ::
         ChannelReply.ok ⟨true, Payload.nowPlaying ⟨ty, pq⟩⟩ :: rest) s).1 ∧
    ∀ q : Int,
      q ∈ (entries.filter (fun i => decide (i.qid ≠ pq))).map QueuedItemDict.qid ↔
        (q ∈ entries.map QueuedItemDict.qid ∧ q ≠ pq) := by
  have htrace := cqenp_success_trace eid pid entries ty pq rest s h
  refine ⟨?_, ?_, ?_⟩
  · rw [htrace]
    simp only [countCmd_append, cqenpTail_no_cmds]
    rfl
  · rw [htrace]
    simp
  · intro q
    constructor
    · intro hq
      simp only [List.mem_map, List.mem_filter, decide_eq_true_eq] at hq
      obtain ⟨i, ⟨hi, hne⟩, hqi⟩ := hq
      exact ⟨hqi ▸ List.mem_map_of_mem QueuedItemDict.qid hi, hqi ▸ hne⟩
    · rintro ⟨hq, hne⟩
      simp only [List.mem_map] at hq
      obtain ⟨i, hi, hqi⟩ := hq
      simp only [List.mem_map, List.mem_filter, decide_eq_true_eq]
      exact ⟨i, ⟨hi, by rw [hqi]; exact hne⟩, hqi⟩

/-- Witness for C6 at the spec's own example: queue [1,2,3], now
playing qid 2. -/
theorem cqenp_removal_set_witness :
    (1 < ([⟨1⟩, ⟨2⟩, ⟨3⟩] : List QueuedItemDict).length) ∧
    countCmd "player/remove_from_queue"
      (ClearQueueExceptNowPlaying.handler "media_player.x" 3
        (ChannelReply.ok ⟨true, Payload.queue [⟨1⟩, ⟨2⟩, ⟨3⟩]⟩ ::
         ChannelReply.ok ⟨true, Payload.nowPlaying ⟨MediaType.song, 2⟩⟩ :: []) ()).1 = 1 :=
  ⟨by decide,
   (cqenp_removal_set "media_player.x" 3 [⟨1⟩, ⟨2⟩, ⟨3⟩] MediaType.song 2 [] ()
     (by decide)).1⟩

/-- C7 amended: when the batched `player/remove_from_queue` command
raises, the failure is silently swallowed (`except HeosError: pass`) —
the per-device run is indistinguishable from one where the removal
succeeded, the step-5 re-fetch of now-playing is still issued (two
`player/get_now_playing_media` commands appear in the trace), and the
device is not flagged as failed (the handler completes normally).  The
source, unlike the spec, emits no log for this failure. -/
theorem cqenp_remove_failure_silently_ignored (eid : String) (pid : Int)
    (entries : List QueuedItemDict) (ty : MediaType) (pq : Int)
    (r3 : ChannelReply) (rest : ChannelScript) (s : Unit)
    (h : 1 < entries.length) :
    ClearQueueExceptNowPlaying.handler eid pid
        (ChannelReply.ok ⟨true, Payload.queue entries⟩ ::
         ChannelReply.ok ⟨true, Payload.nowPlaying ⟨ty, pq⟩⟩ ::
         ChannelReply.raise :: rest) s =
      ClearQueueExceptNowPlaying.handler eid pid
        (ChannelReply.ok ⟨true, Payload.queue entries⟩ ::
         ChannelReply.ok ⟨true, Payload.nowPlaying ⟨ty, pq⟩⟩ :: r3 :: rest) s ∧
    countCmd "player/get_now_playing_media"
      (ClearQueueExceptNowPlaying.handler eid pid
        (ChannelReply.ok ⟨true, Payload.queue entries⟩ ::
         ChannelReply.ok ⟨true, Payload.nowPlaying ⟨ty, pq⟩⟩ ::
         ChannelReply.raise :: rest) s).1 = 2 ∧
    (ClearQueueExceptNowPlaying.handler eid pid
        (ChannelReply.ok ⟨true, Payload.queue entries⟩ ::
         ChannelReply.ok ⟨true, Payload.nowPlaying ⟨ty, pq⟩⟩ ::
         ChannelReply.raise :: rest) s).2 = DispatchResult.ok s := by
  have h1 := cqenp_success_trace eid pid entries ty pq (ChannelReply.raise :: rest) s h
  have h2 := cqenp_success_trace eid pid entries ty pq (r3 :: rest) s h
  refine ⟨?_, ?_, ?_⟩
  · rw [h1, h2]
    rfl
  · rw [h1]
    simp only [countCmd_append, cqenpTail_no_cmds]
    rfl
  · rw [h1]

/-- Witness for C7's amended theorem on a two-entry queue. -/
theorem cqenp_remove_failure_silently_ignored_witness :
    (1 < ([⟨1⟩, ⟨2⟩] : List QueuedItemDict).length) ∧
    ClearQueueExceptNowPlaying.handler "media_player.x" 3
        (ChannelReply.ok ⟨true, Payload.queue [⟨1⟩, ⟨2⟩]⟩ ::
         ChannelReply.ok ⟨true, Payload.nowPlaying ⟨MediaType.song, 1⟩⟩ ::
         ChannelReply.raise :: []) () =
      ClearQueueExceptNowPlaying.handler "media_player.x" 3
        (ChannelReply.ok ⟨true, Payload.queue [⟨1⟩, ⟨2⟩]⟩ ::
         ChannelReply.ok ⟨true, Payload.nowPlaying ⟨MediaType.song, 1⟩⟩ ::
         ChannelReply.ok ⟨true, Payload.empty⟩ :: []) () :=
  ⟨by decide,
   (cqenp_remove_failure_silently_ignored "media_player.x" 3 [⟨1⟩, ⟨2⟩]
     MediaType.song 1 (ChannelReply.ok ⟨true, Payload.empty⟩) [] () (by decide)).1⟩

/-- Counterexample to C7 as stated: in a concrete run where the batched
removal raises (queue [1,2], now playing qid 1, third call raises,
fourth returns now-playing qid 1), the trace contains not a single
warning-, error- or exception-level log record — the removal failure is
NOT logged — even though the removal command was issued once and the
step-5 re-fetch still followed it. -/
theorem cqenp_remove_failure_not_logged :
    ((ClearQueueExceptNowPlaying.handler "media_player.a" 7
        [ChannelReply.ok ⟨true, Payload.queue [⟨1⟩, ⟨2⟩]⟩,
         ChannelReply.ok ⟨true, Payload.nowPlaying ⟨MediaType.song, 1⟩⟩,
         ChannelReply.raise,
         ChannelReply.ok ⟨true, Payload.nowPlaying ⟨MediaType.song, 1⟩⟩] ()).1.filter
      Event.isFailureLog = []) ∧
    countCmd "player/remove_from_queue"
      ((ClearQueueExceptNowPlaying.handler "media_player.a" 7
        [ChannelReply.ok ⟨true, Payload.queue [⟨1⟩, ⟨2⟩]⟩,
         ChannelReply.ok ⟨true, Payload.nowPlaying ⟨MediaType.song, 1⟩⟩,
         ChannelReply.raise,
         ChannelReply.ok ⟨true, Payload.nowPlaying ⟨MediaType.song, 1⟩⟩] ()).1) = 1 ∧
    countCmd "player/get_now_playing_media"
      ((ClearQueueExceptNowPlaying.handler "media_player.a" 7
        [ChannelReply.ok ⟨true, Payload.queue [⟨1⟩, ⟨2⟩]⟩,
         ChannelReply.ok ⟨true, Payload.nowPlaying ⟨MediaType.song, 1⟩⟩,
         ChannelReply.raise,
         ChannelReply.ok ⟨true, Payload.nowPlaying ⟨MediaType.song, 1⟩⟩] ()).1) = 2 := by
  refine ⟨?_, ?_, ?_⟩ <;> rfl

/-- A per-device function that raises an exception the dispatch loop
does not catch (the source only catches `HeosError`, and only inside
each handler — `async_exec_command`'s loop has no try/except). -/
def raisingPerDeviceFn : PerDeviceFn Unit := fun _ _ _ _ => ([], DispatchResult.exn)

/-- Counterexample to C1 as stated: with a per-device function whose
first invocation raises, `async_exec_command` over two resolved targets
invokes the function for only the first target — the second target gets
no invocation and hence no outcome, so "exactly one outcome per target
regardless of how many invocations fail" does not hold of the loop for
arbitrary per-device functions. -/
theorem async_exec_command_skips_after_exception :
    ((async_exec_command raisingPerDeviceFn
        [[Entity.heos "media_player.a" 1 [], Entity.heos "media_player.b" 2 []]]
        ()).2.1).length = 1 ∧
    (resolvedTargets
        [[Entity.heos "media_player.a" 1 [], Entity.heos "media_player.b" 2 []]]).length
      = 2 ∧
    (async_exec_command raisingPerDeviceFn
        [[Entity.heos "media_player.a" 1 [], Entity.heos "media_player.b" 2 []]]
        ()).2.1 ≠
      resolvedTargets
        [[Entity.heos "media_player.a" 1 [], Entity.heos "media_player.b" 2 []]] := by
  refine ⟨rfl, rfl, ?_⟩
  decide

/-- C1 amended: for every per-device function that completes without
raising an uncaught exception — as all four registered handlers do,
each catching the channel's `HeosError` internally —
`async_exec_command` invokes the function exactly once per resolved
target: the invocation list equals the resolved target list, which has
no duplicates and no omissions. -/
theorem async_exec_command_invokes_once {σ : Type} (handler : PerDeviceFn σ)
    (entityLists : List (List Entity)) (s : σ)
    (hok : ∀ eid pid sc st, ∃ st1, (handler eid pid sc st).2 = DispatchResult.ok st1) :
    (async_exec_command handler entityLists s).2.1 = resolvedTargets entityLists ∧
    (resolvedTargets entityLists).Nodup :=
  ⟨(execEntities_invokes handler hok (entityLists.flatten.dedup) s).1,
   resolvedTargets_nodup entityLists⟩

/-- Witness for C1's amended theorem at a never-raising function and one
resolved target. -/
theorem async_exec_command_invokes_once_witness :
    (∀ (eid : String) (pid : Int) (sc : ChannelScript) (st : Unit), ∃ st1,
      ((fun (_ : String) (_ : Int) (_ : ChannelScript) (st : Unit) =>
          (([] : List Event), DispatchResult.ok st)) eid pid sc st).2 =
        DispatchResult.ok st1) ∧
    ((async_exec_command
        (fun (_ : String) (_ : Int) (_ : ChannelScript) (st : Unit) =>
          (([] : List Event), DispatchResult.ok st))
        [[Entity.heos "media_player.a" 1 []]] ()).2.1 =
      resolvedTargets [[Entity.heos "media_player.a" 1 []]] ∧
     (resolvedTargets [[Entity.heos "media_player.a" 1 []]]).Nodup) :=
  ⟨fun _ _ _ st => ⟨st, rfl⟩,
   async_exec_command_invokes_once _ [[Entity.heos "media_player.a" 1 []]] ()
     (fun _ _ _ st => ⟨st, rfl⟩)⟩

/-- Counterexample to C2 as stated: `async_exec_command` itself catches
nothing — an exception other than the handled `HeosError` kind raised
inside the per-device function propagates out of the dispatch
(`DispatchResult.exn`) and prevents the function from being invoked for
the remaining device: only the first of the two resolved targets is
ever invoked. -/
theorem async_exec_command_propagates_exception :
    (async_exec_command raisingPerDeviceFn
        [[Entity.heos "media_player.c" 3 [], Entity.heos "media_player.d" 4 []]]
        ()).2.2 = DispatchResult.exn ∧
    (async_exec_command raisingPerDeviceFn
        [[Entity.heos "media_player.c" 3 [], Entity.heos "media_player.d" 4 []]]
        ()).2.1 = [⟨"media_player.c", 3, []⟩] := by
  refine ⟨rfl, ?_⟩
  decide

/-- C2 amended: every channel error (`HeosError`) raised during a
registered handler's remote calls is caught inside that handler, at the
device boundary; consequently, for each of the four registered
services, the dispatch always completes without an exception escaping
and the per-device logic runs for every resolved target — one device's
channel error never prevents the other devices' invocations or
outcomes. -/
theorem registered_handlers_isolate_failures (entityLists : List (List Entity))
    (qid : Int) :
    ((ClearQueue.callback entityLists).2.2 = DispatchResult.ok () ∧
      (ClearQueue.callback entityLists).2.1 = resolvedTargets entityLists) ∧
    ((ClearQueueExceptNowPlaying.callback entityLists).2.2 = DispatchResult.ok () ∧
      (ClearQueueExceptNowPlaying.callback entityLists).2.1 = resolvedTargets entityLists) ∧
    ((GetQueue.callback entityLists).2.2.isSome = true ∧
      (GetQueue.callback entityLists).2.1 = resolvedTargets entityLists) ∧
    ((RemoveFromQueue.callback (some qid) true entityLists).2.2.isSome = true ∧
      (RemoveFromQueue.callback (some qid) true entityLists).2.1 =
        resolvedTargets entityLists) := by
  obtain ⟨hinv1, s1, hs1⟩ :=
    execEntities_invokes ClearQueue.handler clearQueue_handler_ok
      (entityLists.flatten.dedup) ()
  obtain ⟨hinv2, s2, hs2⟩ :=
    execEntities_invokes ClearQueueExceptNowPlaying.handler
      cqenp_handler_ok (entityLists.flatten.dedup) ()
  obtain ⟨hinv3, s3, hs3⟩ :=
    execEntities_invokes GetQueue.handler getQueue_handler_ok
      (entityLists.flatten.dedup) ⟨[], []⟩
  obtain ⟨hinv4, s4, hs4⟩ :=
    execEntities_invokes (RemoveFromQueue.handler qid) (removeFromQueue_handler_ok qid)
      (entityLists.flatten.dedup) []
  refine ⟨⟨?_, hinv1⟩, ⟨?_, hinv2⟩, ⟨?_, ?_⟩, ⟨?_, ?_⟩⟩
  · cases s1
    exact hs1
  · cases s2
    exact hs2
  · simp [GetQueue.callback, async_exec_command, hs3]
  · simp [GetQueue.callback, async_exec_command, hs3, hinv3, resolvedTargets]
  · simp [RemoveFromQueue.callback, async_exec_command, hs4]
  · simp [RemoveFromQueue.callback, async_exec_command, hs4, hinv4, resolvedTargets]

/-- C4: a `remove_from_queue` call whose service data lacks `queue_id`
fails fast: the callback logs a single operation-level validation error
and returns no body, no per-device dispatch runs (the invocation list
is empty), and no remote command of any name is issued. -/
theorem removeFromQueue_missing_qid (returnResponse : Bool)
    (entityLists : List (List Entity)) :
    RemoveFromQueue.callback Option.none returnResponse entityLists =
      ([Event.log LogLevel.error "missing_queue_id"], [], Option.none) ∧
    (∀ name, countCmd name
      (RemoveFromQueue.callback Option.none returnResponse entityLists).1 = 0) :=
  ⟨rfl, fun _ => rfl⟩

/-- C8: for a valid `queue_id`, `remove_from_queue` returns
`{errors: the failed device identifiers in dispatch order}` exactly
when the caller requested a response, and nothing otherwise, the
per-device outcomes being the same in both modes (the dispatch is
deterministic in the scripts). -/
theorem removeFromQueue_response_modes (qid : Int) (entityLists : List (List Entity)) :
    (RemoveFromQueue.callback (some qid) true entityLists).2.2 =
      some ⟨((resolvedTargets entityLists).filter Target.raises).map Target.entityId⟩ ∧
    (RemoveFromQueue.callback (some qid) false entityLists).2.2 = Option.none ∧
    (RemoveFromQueue.callback (some qid) true entityLists).1 =
      (RemoveFromQueue.callback (some qid) false entityLists).1 := by
  have h := removeFromQueue_fold qid (entityLists.flatten.dedup) []
  refine ⟨?_, ?_, ?_⟩
  · simp [RemoveFromQueue.callback, async_exec_command, h, resolvedTargets]
  · simp [RemoveFromQueue.callback, async_exec_command, h, resolvedTargets]
  · simp [RemoveFromQueue.callback, async_exec_command, h]

/-- C9: target resolution deduplicates — the resolved target list has
no duplicates, resolving any selector equals resolving its
de-duplicated flattening, and a selector naming the same entity twice
by different paths resolves to the same targets as naming it once. -/
theorem resolver_dedups (entityLists : List (List Entity)) (e : Entity) :
    (resolvedTargets entityLists).Nodup ∧
    resolvedTargets [entityLists.flatten.dedup] = resolvedTargets entityLists ∧
    resolvedTargets [[e], [e]] = resolvedTargets [[e]] := by
  refine ⟨resolvedTargets_nodup entityLists, ?_, ?_⟩
  · simp [resolvedTargets, List.dedup_idem]
  · simp [resolvedTargets, List.dedup_cons_of_mem]

theorem Target.not_flagSucceeds_of_raises (t : Target) (h : Target.raises t = true) :
    Target.flagSucceeds t = false := by
  rcases hr : scriptHead t.script with _ | resp
  · simp [Target.flagSucceeds, hr]
  · simp [Target.raises, hr] at h

theorem Target.not_flagSucceeds_of_flagFails (t : Target)
    (h : Target.flagFails t = true) : Target.flagSucceeds t = false := by
  rcases hr : scriptHead t.script with _ | resp
  · simp [Target.flagSucceeds, hr]
  · simp [Target.flagFails, hr] at h
    simp [Target.flagSucceeds, hr, h]

theorem Target.not_raises_of_flagFails (t : Target) (h : Target.flagFails t = true) :
    Target.raises t = false := by
  rcases hr : scriptHead t.script with _ | resp
  · simp [Target.flagFails, hr] at h
  · simp [Target.raises, hr]

theorem getQueue_callback_spec (ll : List (List Entity))
    (hnodup : ((resolvedTargets ll).map Target.entityId).Nodup) :
    (GetQueue.callback ll).2.2 = some
      ⟨(((resolvedTargets ll).filter Target.flagSucceeds).map
          (fun t => (t.entityId, t.firstPayload))).length,
       ((resolvedTargets ll).filter Target.flagSucceeds).map
          (fun t => (t.entityId, t.firstPayload)),
       ((resolvedTargets ll).filter Target.raises).map Target.entityId⟩ := by
  have h := getQueue_fold (ll.flatten.dedup) ⟨[], []⟩ (by simp) hnodup
  simp [GetQueue.callback, async_exec_command, h, resolvedTargets]

/-- Counterexample to C3 as stated: one resolved device (N = 1) whose
`player/get_queue` call returns normally with a false result flag
(M = 1 failure by the unsuccessful-result mode).  The claim demands
`aggregate.errors` have exactly M = 1 entries, but the code records
result-flag failures nowhere: the callback returns
`{count: 0, queues: {}, errors: []}` and the errors list has length 0,
not 1. -/
theorem getQueue_flag_failure_cex :
    (resolvedTargets
      [[Entity.heos "media_player.a" 1
        [ChannelReply.ok ⟨false, Payload.queue []⟩]]]).length = 1 ∧
    Target.flagFails
      ⟨"media_player.a", 1, [ChannelReply.ok ⟨false, Payload.queue []⟩]⟩ = true ∧
    (GetQueue.callback
      [[Entity.heos "media_player.a" 1
        [ChannelReply.ok ⟨false, Payload.queue []⟩]]]).2.2 = some ⟨0, [], []⟩ ∧
    ((GetQueue.callback
      [[Entity.heos "media_player.a" 1
        [ChannelReply.ok ⟨false, Payload.queue []⟩]]]).2.2.map
          (fun r => r.errors.length)) ≠ some 1 := by
  refine ⟨rfl, rfl, rfl, ?_⟩
  decide

/-- C3 amended: with N resolved devices of which Mr fail by the channel
raising and Mf fail by an unsuccessful result flag (so M = Mr + Mf),
the aggregate satisfies count = N - Mr - Mf and queues has exactly
N - Mr - Mf keys (as the claim says for N - M), but errors lists
exactly the Mr raise-failed device identifiers only — devices failing
via the result flag are omitted from errors (and from queues).  Every
raise-failed device appears in errors and not in queues. -/
theorem getQueue_aggregate_counts (ll : List (List Entity))
    (hnodup : ((resolvedTargets ll).map Target.entityId).Nodup) :
    (GetQueue.callback ll).2.2 = some
      ⟨(resolvedTargets ll).length
         - ((resolvedTargets ll).filter Target.raises).length
         - ((resolvedTargets ll).filter Target.flagFails).length,
       ((resolvedTargets ll).filter Target.flagSucceeds).map
         (fun t => (t.entityId, t.firstPayload)),
       ((resolvedTargets ll).filter Target.raises).map Target.entityId⟩ ∧
    (((resolvedTargets ll).filter Target.flagSucceeds).map
       (fun t => (t.entityId, t.firstPayload))).length
      = (resolvedTargets ll).length
        - ((resolvedTargets ll).filter Target.raises).length
        - ((resolvedTargets ll).filter Target.flagFails).length ∧
    (∀ t ∈ resolvedTargets ll, Target.raises t = true →
      t.entityId ∈ ((resolvedTargets ll).filter Target.raises).map Target.entityId ∧
      t.entityId ∉ (((resolvedTargets ll).filter Target.flagSucceeds).map
        (fun t => (t.entityId, t.firstPayload))).map Prod.fst) := by
  have hpart := target_partition (resolvedTargets ll)
  have hlen : (((resolvedTargets ll).filter Target.flagSucceeds).map
      (fun t => (t.entityId, t.firstPayload))).length
      = ((resolvedTargets ll).filter Target.flagSucceeds).length :=
    List.length_map _ _
  have hcount : (((resolvedTargets ll).filter Target.flagSucceeds).map
      (fun t => (t.entityId, t.firstPayload))).length
      = (resolvedTargets ll).length
        - ((resolvedTargets ll).filter Target.raises).length
        - ((resolvedTargets ll).filter Target.flagFails).length := by
    rw [hlen]; omega
  refine ⟨?_, hcount, ?_⟩
  · rw [getQueue_callback_spec ll hnodup, hcount]
  · intro t ht hr
    constructor
    · exact List.mem_map_of_mem _ (List.mem_filter.mpr ⟨ht, hr⟩)
    · intro hmem
      simp only [List.map_map, Function.comp] at hmem
      obtain ⟨t1, ht1, he⟩ := List.mem_map.mp hmem
      have ht1mem := List.mem_of_mem_filter ht1
      have hflag := (List.mem_filter.mp ht1).2
      have heq : t1 = t := List.inj_on_of_nodup_map hnodup ht1mem ht he
      rw [heq, Target.not_flagSucceeds_of_raises t hr] at hflag
      exact Bool.noConfusion hflag

/-- Witness for C3's amended theorem: a single device whose script is
exhausted (the channel raises), so N = 1, Mr = 1, Mf = 0. -/
theorem getQueue_aggregate_counts_witness :
    ((resolvedTargets [[Entity.heos "media_player.a" 1 []]]).map
      Target.entityId).Nodup ∧
    (GetQueue.callback [[Entity.heos "media_player.a" 1 []]]).2.2 = some
      ⟨(resolvedTargets [[Entity.heos "media_player.a" 1 []]]).length
         - ((resolvedTargets [[Entity.heos "media_player.a" 1 []]]).filter
             Target.raises).length
         - ((resolvedTargets [[Entity.heos "media_player.a" 1 []]]).filter
             Target.flagFails).length,
       ((resolvedTargets [[Entity.heos "media_player.a" 1 []]]).filter
           Target.flagSucceeds).map (fun t => (t.entityId, t.firstPayload)),
       ((resolvedTargets [[Entity.heos "media_player.a" 1 []]]).filter
           Target.raises).map Target.entityId⟩ :=
  ⟨by decide,
   (getQueue_aggregate_counts [[Entity.heos "media_player.a" 1 []]] (by decide)).1⟩

/-- C10: for every `get_queue` invocation (over targets with distinct
entity ids), the aggregate's count equals the number of keys of queues,
no device identifier appears both as a queues key and in errors, and a
device whose call returns normally with a false result flag appears in
neither queues nor errors — it is silently omitted. -/
theorem getQueue_aggregate_invariants (ll : List (List Entity))
    (hnodup : ((resolvedTargets ll).map Target.entityId).Nodup) :
    ∃ r, (GetQueue.callback ll).2.2 = some r ∧
      r.count = r.queues.length ∧
      (∀ x, x ∈ r.queues.map Prod.fst → x ∉ r.errors) ∧
      (∀ t ∈ resolvedTargets ll, Target.flagFails t = true →
        t.entityId ∉ r.queues.map Prod.fst ∧ t.entityId ∉ r.errors) := by
  refine ⟨_, getQueue_callback_spec ll hnodup, rfl, ?_, ?_⟩
  · intro x hq he
    simp only [List.map_map, Function.comp] at hq
    obtain ⟨t1, ht1, he1⟩ := List.mem_map.mp hq
    obtain ⟨t2, ht2, he2⟩ := List.mem_map.mp he
    have heq : t1 = t2 := List.inj_on_of_nodup_map hnodup
      (List.mem_of_mem_filter ht1) (List.mem_of_mem_filter ht2) (he1.trans he2.symm)
    have hflag := (List.mem_filter.mp ht1).2
    rw [heq, Target.not_flagSucceeds_of_raises t2 (List.mem_filter.mp ht2).2] at hflag
    exact Bool.noConfusion hflag
  · intro t ht hf
    constructor
    · intro hq
      simp only [List.map_map, Function.comp] at hq
      obtain ⟨t1, ht1, he1⟩ := List.mem_map.mp hq
      have heq : t1 = t := List.inj_on_of_nodup_map hnodup
        (List.mem_of_mem_filter ht1) ht he1
      have hflag := (List.mem_filter.mp ht1).2
      rw [heq, Target.not_flagSucceeds_of_flagFails t hf] at hflag
      exact Bool.noConfusion hflag
    · intro he
      obtain ⟨t2, ht2, he2⟩ := List.mem_map.mp he
      have heq : t2 = t := List.inj_on_of_nodup_map hnodup
        (List.mem_of_mem_filter ht2) ht he2
      have hraise := (List.mem_filter.mp ht2).2
      rw [heq, Target.not_raises_of_flagFails t hf] at hraise
      exact Bool.noConfusion hraise

/-- Witness for C10 at a single device failing via the result flag. -/
theorem getQueue_aggregate_invariants_witness :
    ((resolvedTargets
        [[Entity.heos "media_player.a" 1
          [ChannelReply.ok ⟨false, Payload.queue []⟩]]]).map
      Target.entityId).Nodup ∧
    (∃ r, (GetQueue.callback
        [[Entity.heos "media_player.a" 1
          [ChannelReply.ok ⟨false, Payload.queue []⟩]]]).2.2 = some r ∧
      r.count = r.queues.length) := by
  refine ⟨by decide, ?_⟩
  obtain ⟨r, hr, hc, _, _⟩ := getQueue_aggregate_invariants
    [[Entity.heos "media_player.a" 1 [ChannelReply.ok ⟨false, Payload.queue []⟩]]]
    (by decide)
  exact ⟨r, hr, hc⟩

end HeosQueueMgr
